import Mathlib

/-!
Shallow embedding of the sylon telemetry agent (src/server/api.js) and
verification of the specified properties of its delivery retry loop, CPU
utilization estimator, disk snapshot, machine-identity resolution, request
construction and tick scheduling.
-/

namespace Sylon

/-- Result of one network attempt as seen by the retry loop of
`sendPayload`: an HTTP response carrying a status code, or a transport
error / timeout (the `catch` branch of the source). -/
inductive AttemptResult where
  | status (code : Nat)
  | netError
deriving DecidableEq, Repr

/-- Agent configuration, mirroring `DEFAULT_CONFIG` and the fields read by
`sendPayload` in src/server/api.js. Numeric fields are rationals standing
for JS numbers. -/
structure Config where
  endpoint : String
  api_key : String
  interval_seconds : ℚ
  timeout_seconds : ℚ
  max_retries : Nat
  backoff_base : ℚ
  jitter : ℚ
deriving DecidableEq, Repr

/-- The default configuration of src/server/api.js (`DEFAULT_CONFIG`);
`endpoint = "NULL"` is the "not configured" sentinel. -/
def DEFAULT_CONFIG : Config :=
  { endpoint := "NULL", api_key := "NULL", interval_seconds := 300,
    timeout_seconds := 10, max_retries := 5, backoff_base := 2, jitter := 3/10 }

/-- Classification of one attempt, following the branch order of
`sendPayload` (lines 273-284): 2xx success first, then 4xx client error,
anything else (other statuses, transport errors, timeouts) transient. -/
inductive AttemptClass where
  | success
  | clientError (code : Nat)
  | transient
deriving DecidableEq, Repr

/-- Classifier applied to each attempt result by `sendPayload`. -/
def classifyAttempt : AttemptResult → AttemptClass
  | .status c =>
      if 200 ≤ c ∧ c < 300 then .success
      else if 400 ≤ c ∧ c < 500 then .clientError c
      else .transient
  | .netError => .transient

/-- Outcome of one `sendPayload` invocation, refining the boolean return
value of the source by the code path taken: early return on the
unconfigured-endpoint sentinel, 2xx success, 4xx client error, or all
retries exhausted. -/
inductive DeliveryOutcome where
  | delivered
  | rejectedUnconfigured
  | rejected (status : Nat)
  | exhausted
deriving DecidableEq, Repr

/-- Trace of one `sendPayload` invocation: how many attempts were issued,
the backoff sleeps performed between attempts (in seconds, in order), and
the final outcome. -/
structure DeliveryTrace where
  attempts : Nat
  sleeps : List ℚ
  outcome : DeliveryOutcome
deriving DecidableEq, Repr

/-- Retry loop of `sendPayload` (lines 248-295). `resp n` is the result
of the n-th attempt (attempts are numbered from 1, as in the source);
`rand n` models the `Math.random()` sample drawn for the sleep that
follows attempt n. `fuel` is the number of loop iterations remaining
(`max_retries - attempt + 1` at the top-level call); the source guard
`attempt < max_retries` deciding whether to sleep and retry is kept
verbatim. -/
def sendFrom (cfg : Config) (resp : Nat → AttemptResult) (rand : Nat → ℚ) :
    Nat → Nat → DeliveryTrace
  | _, 0 => ⟨0, [], .exhausted⟩
  | attempt, fuel + 1 =>
      match classifyAttempt (resp attempt) with
      | .success => ⟨1, [], .delivered⟩
      | .clientError c => ⟨1, [], .rejected c⟩
      | .transient =>
          if attempt < cfg.max_retries then
            let s := cfg.backoff_base ^ attempt + rand attempt * cfg.jitter
            let t := sendFrom cfg resp rand (attempt + 1) fuel
            ⟨t.attempts + 1, s :: t.sleeps, t.outcome⟩
          else ⟨1, [], .exhausted⟩

/-- Model of `sendPayload` of src/server/api.js: the endpoint sentinel
check (lines 226-229), then the bounded retry loop starting at attempt 1
with `max_retries` permitted iterations. -/
def sendPayload (cfg : Config) (resp : Nat → AttemptResult) (rand : Nat → ℚ) :
    DeliveryTrace :=
  if cfg.endpoint = "NULL" then ⟨0, [], .rejectedUnconfigured⟩
  else sendFrom cfg resp rand 1 cfg.max_retries

/-- The list of sleeps produced by `n` consecutive transiently-failing
iterations starting at attempt number `a`: before each retry the source
sleeps `backoff_base ** attempt + Math.random() * jitter` seconds. -/
def sleepsFrom (cfg : Config) (rand : Nat → ℚ) (a : Nat) : Nat → List ℚ
  | 0 => []
  | n + 1 => (cfg.backoff_base ^ a + rand a * cfg.jitter) :: sleepsFrom cfg rand (a + 1) n

/-- Per-CPU tick counters read from `os.cpus()`: the five categories
summed by `calculateCpuPercent` (user, nice, sys, idle, irq). -/
structure CpuTimes where
  user : ℚ
  nice : ℚ
  sys : ℚ
  idle : ℚ
  irq : ℚ
deriving DecidableEq, Repr

/-- State stored per CPU by `calculateCpuPercent` (the entries of
`previousCpuTicks`): idle ticks and the sum of all five categories. -/
structure CpuTick where
  idle : ℚ
  total : ℚ
deriving DecidableEq, Repr

/-- Mapping of one `os.cpus()` entry to its stored state entry
(`currentCpuTicks` construction, lines 113-119). -/
def tickOf (t : CpuTimes) : CpuTick :=
  { idle := t.idle, total := t.user + t.nice + t.sys + t.idle + t.irq }

/-- Sum of per-CPU idle deltas (`idleDifference` in the source). The
source loops positionally over the current cpu list; the model pairs
current and previous entries positionally. -/
def idleDiff (cur prev : List CpuTick) : ℚ :=
  (List.zipWith (fun a b => a.idle - b.idle) cur prev).sum

/-- Sum of per-CPU total deltas (`totalDifference` in the source). -/
def totalDiff (cur prev : List CpuTick) : ℚ :=
  (List.zipWith (fun a b => a.total - b.total) cur prev).sum

/-- Rounding to one decimal, modelling `parseFloat(x.toFixed(1))`. -/
def round1 (x : ℚ) : ℚ := (round (10 * x) : ℤ) / 10

/-- `calculateCpuPercent` of src/server/api.js (lines 108-144), with the
module-level `previousCpuTicks` state threaded explicitly: given the
previous stored state (absent before the first call) and the current
`os.cpus()` reading, returns the reported percentage and the new stored
state. -/
def calculateCpuPercent (prev : Option (List CpuTick)) (cpus : List CpuTimes) :
    ℚ × List CpuTick :=
  let cur := cpus.map tickOf
  match prev with
  | none => (0, cur)
  | some p =>
      if 0 < totalDiff cur p then
        (round1 (100 - idleDiff cur p / totalDiff cur p * 100), cur)
      else (0, cur)

/-- Disk snapshot block. -/
structure DiskUsage where
  total : ℚ
  used : ℚ
  free : ℚ
  percent : ℚ
deriving DecidableEq, Repr

/-- `getDiskUsage` of src/server/api.js (lines 146-158): the fixed
placeholder quadruple. -/
def getDiskUsage : DiskUsage :=
  { total := 100000000000, used := 40000000000, free := 60000000000, percent := 40 }

/-- The fields of the `collectMetrics` snapshot that carry derived logic:
the CPU percentage and the disk block. The remaining fields are fresh OS
reads passed through unchanged and are not modelled. -/
structure MetricSnapshot where
  cpu_percent : ℚ
  disk : DiskUsage
deriving DecidableEq, Repr

/-- `collectMetrics` of src/server/api.js restricted to the modelled
fields, threading the CPU state explicitly. -/
def collectMetrics (prev : Option (List CpuTick)) (cpus : List CpuTimes) :
    MetricSnapshot × List CpuTick :=
  let r := calculateCpuPercent prev cpus
  ({ cpu_percent := r.1, disk := getDiskUsage }, r.2)

/-- Whitespace trimming at both ends, modelling the JS
`String.prototype.trim()` applied by `getMachineId` to every file read. -/
def trimStr (s : String) : String :=
  ⟨((s.data.dropWhile Char.isWhitespace).reverse.dropWhile Char.isWhitespace).reverse⟩

/-- Filesystem state visible to `getMachineId`: the contents of
/etc/machine-id and /var/lib/dbus/machine-id when present and readable,
the contents of the persistence file /var/lib/sylon/id, and whether the
mkdir/write of the persistence file would succeed. -/
structure FsState where
  etcId : Option String
  dbusId : Option String
  persisted : Option String
  writeOk : Bool
deriving DecidableEq, Repr

/-- `getMachineId` of src/server/api.js (lines 64-101). `u1` models the
UUID drawn by `crypto.randomUUID()` inside the try block (the candidate
that is persisted); `u2` models the UUID drawn in the catch block when
the persistence mkdir/write fails. Returns the identifier and the
filesystem state after the call; the source re-runs this resolution on
every `collectMetrics` call (no in-memory cache). -/
def getMachineId (fs : FsState) (u1 u2 : String) : String × FsState :=
  match fs.etcId with
  | some s => (trimStr s, fs)
  | none =>
      match fs.dbusId with
      | some s => (trimStr s, fs)
      | none =>
          match fs.persisted with
          | some s => (trimStr s, fs)
          | none =>
              if fs.writeOk then (u1, { fs with persisted := some u1 })
              else (u2, fs)

/-- Components of `url.parse(endpoint)` relevant to `sendPayload`. Per
the Node url module contract, `pathname` is the path component without
the query string; `port` and `query` are the explicit port and the query
string when present in the URL. -/
structure ParsedUrl where
  hostname : String
  port : Option Nat
  pathname : String
  query : Option String
deriving DecidableEq, Repr

/-- Options of the `https.request` built by `sendPayload`
(lines 231-246). -/
structure RequestOptions where
  hostname : String
  port : Nat
  path : String
  method : String
  timeout : ℚ
deriving DecidableEq, Repr

/-- Construction of the request options in `sendPayload`: only the
hostname and the pathname of the parsed endpoint are used, the port is
the literal 443, and the timeout is `timeout_seconds` in milliseconds. -/
def buildRequestOptions (u : ParsedUrl) (timeout_seconds : ℚ) : RequestOptions :=
  { hostname := u.hostname, port := 443, path := u.pathname,
    method := "POST", timeout := timeout_seconds * 1000 }

/-- Start time of the k-th interval callback of `main` (lines 300-323):
`setInterval` is registered at time `base` (right after the awaited
immediate first cycle) and Node fires its callback at fixed multiples of
the interval thereafter, independently of how long each callback's own
delivery takes. -/
def cycleStart (cfg : Config) (base : ℚ) (k : Nat) : ℚ :=
  base + cfg.interval_seconds * k

/-- Total time `sendPayload` spends in backoff sleeps: a lower bound on
the wall-clock duration of a delivery cycle's network phase. -/
def sleepTotal (t : DeliveryTrace) : ℚ := t.sleeps.sum

/-- Pointwise ordering of CPU tick counters: every category of the first
reading is at most the corresponding category of the second (tick
counters are cumulative since boot, hence non-decreasing). -/
def cpuTimesLe (a b : CpuTimes) : Prop :=
  a.user ≤ b.user ∧ a.nice ≤ b.nice ∧ a.sys ≤ b.sys ∧ a.idle ≤ b.idle ∧ a.irq ≤ b.irq

/-- A configuration with a configured (non-sentinel) endpoint, used by
the concrete instances below. -/
def cfgTest : Config :=
  { DEFAULT_CONFIG with endpoint := "https://api.example.com/ingest" }

/-- The test configuration with a short interval (20 s). -/
def cfgFast : Config :=
  { cfgTest with interval_seconds := 20 }

/-- An endpoint answering HTTP 500 on every attempt. -/
def resp500 : Nat → AttemptResult := fun _ => .status 500

/-- An endpoint answering HTTP 404 on every attempt. -/
def resp404 : Nat → AttemptResult := fun _ => .status 404

/-- An endpoint answering HTTP 200 on every attempt. -/
def resp200 : Nat → AttemptResult := fun _ => .status 200

/-- A random source always sampling 0. -/
def rand0 : Nat → ℚ := fun _ => 0

/-- A previous CPU reading used by the concrete instances. -/
def prevW : List CpuTimes := [⟨10, 0, 10, 80, 0⟩]

/-- A current CPU reading used by the concrete instances. -/
def curW : List CpuTimes := [⟨30, 0, 20, 130, 0⟩]

/-- A stored CPU state whose totals exceed the current reading, forcing
`total_delta ≤ 0`. -/
def pBadW : List CpuTick := [⟨200, 200⟩]

/-- Filesystem state with no identity files and a failing persistence
write (the ultimate-fallback path of `getMachineId`). -/
def fsVolatile : FsState := ⟨none, none, none, false⟩

/-- Filesystem state with no identity files and a succeeding persistence
write (the generate-and-persist path of `getMachineId`). -/
def fsFresh : FsState := ⟨none, none, none, true⟩


/-! Helper lemmas about the retry loop. -/

lemma sleepsFrom_length (cfg : Config) (rand : Nat → ℚ) :
    ∀ (n a : Nat), (sleepsFrom cfg rand a n).length = n := by
  intro n
  induction n with
  | zero => intro a; rfl
  | succ n ih => intro a; simp [sleepsFrom, ih]

lemma sleepsFrom_get (cfg : Config) (rand : Nat → ℚ) :
    ∀ (n a i : Nat) (h : i < (sleepsFrom cfg rand a n).length),
      (sleepsFrom cfg rand a n).get ⟨i, h⟩ =
        cfg.backoff_base ^ (a + i) + rand (a + i) * cfg.jitter := by
  intro n
  induction n with
  | zero => intro a i h; simp [sleepsFrom_length] at h
  | succ n ih =>
      intro a i h
      cases i with
      | zero => simp [sleepsFrom]
      | succ i =>
          have e : a + (i + 1) = (a + 1) + i := by omega
          rw [e]
          simp only [sleepsFrom, List.get_cons_succ]
          exact ih (a + 1) i (by simpa [sleepsFrom_length] using h)

lemma sendFrom_zero (cfg : Config) (resp : Nat → AttemptResult) (rand : Nat → ℚ)
    (attempt : Nat) :
    sendFrom cfg resp rand attempt 0 = ⟨0, [], .exhausted⟩ := rfl

lemma sendFrom_succ (cfg : Config) (resp : Nat → AttemptResult) (rand : Nat → ℚ)
    (attempt fuel : Nat) :
    sendFrom cfg resp rand attempt (fuel + 1) =
      match classifyAttempt (resp attempt) with
      | .success => ⟨1, [], .delivered⟩
      | .clientError c => ⟨1, [], .rejected c⟩
      | .transient =>
          if attempt < cfg.max_retries then
            let t := sendFrom cfg resp rand (attempt + 1) fuel
            ⟨t.attempts + 1,
              (cfg.backoff_base ^ attempt + rand attempt * cfg.jitter) :: t.sleeps,
              t.outcome⟩
          else ⟨1, [], .exhausted⟩ := rfl

lemma sendFrom_transient_eq (cfg : Config) (resp : Nat → AttemptResult) (rand : Nat → ℚ)
    (htr : ∀ n, classifyAttempt (resp n) = .transient) :
    ∀ (fuel attempt : Nat), attempt + fuel = cfg.max_retries + 1 →
      sendFrom cfg resp rand attempt fuel =
        ⟨fuel, sleepsFrom cfg rand attempt (fuel - 1), .exhausted⟩ := by
  intro fuel
  induction fuel with
  | zero => intro attempt h; simp [sendFrom_zero, sleepsFrom]
  | succ f ih =>
      intro attempt h
      rw [sendFrom_succ, htr attempt]
      cases f with
      | zero =>
          have ha : ¬ attempt < cfg.max_retries := by omega
          simp [ha, sleepsFrom]
      | succ g =>
          have hlt : attempt < cfg.max_retries := by omega
          have hrec := ih (attempt + 1) (by omega)
          simp only [if_pos hlt]
          rw [hrec]
          simp [sleepsFrom]

lemma sendFrom_clientError_eq (cfg : Config) (resp : Nat → AttemptResult) (rand : Nat → ℚ)
    (a c : Nat) (hca : classifyAttempt (resp a) = .clientError c) :
    ∀ (fuel attempt : Nat), attempt + fuel = cfg.max_retries + 1 →
      attempt ≤ a → a ≤ cfg.max_retries →
      (∀ n, attempt ≤ n → n < a → classifyAttempt (resp n) = .transient) →
      sendFrom cfg resp rand attempt fuel =
        ⟨a - attempt + 1, sleepsFrom cfg rand attempt (a - attempt), .rejected c⟩ := by
  intro fuel
  induction fuel with
  | zero => intro attempt h h1 h2 h3; omega
  | succ f ih =>
      intro attempt h h1 h2 h3
      rcases Nat.eq_or_lt_of_le h1 with he | hlt
      · subst he
        rw [sendFrom_succ, hca]
        simp [sleepsFrom]
      · have htr := h3 attempt le_rfl hlt
        have hlt2 : attempt < cfg.max_retries := by omega
        have hrec := ih (attempt + 1) (by omega) hlt h2
          (fun n hn1 hn2 => h3 n (by omega) hn2)
        rw [sendFrom_succ, htr]
        simp only [if_pos hlt2]
        rw [hrec]
        have e : a - attempt = (a - (attempt + 1)) + 1 := by omega
        rw [e]
        simp [sleepsFrom]

/-- C1: against an endpoint for which every attempt ends transiently (for
instance, an HTTP 500 on every attempt), `sendPayload` performs exactly
`max_retries` attempts, the sleep before attempt k+1 (for every attempt
number 1 ≤ k < max_retries after which a retry happens) lies within
`[backoff_base^k, backoff_base^k + jitter]` seconds, and the final outcome
is `Exhausted`. -/
theorem sendPayload_always_transient_exhausts
    (cfg : Config) (resp : Nat → AttemptResult) (rand : Nat → ℚ)
    (hep : cfg.endpoint ≠ "NULL")
    (htr : ∀ n, classifyAttempt (resp n) = .transient)
    (hrand : ∀ n, 0 ≤ rand n ∧ rand n ≤ 1)
    (hjit : 0 ≤ cfg.jitter) :
    (sendPayload cfg resp rand).attempts = cfg.max_retries ∧
    (sendPayload cfg resp rand).outcome = .exhausted ∧
    (sendPayload cfg resp rand).sleeps.length = cfg.max_retries - 1 ∧
    ∀ (k : Nat), 1 ≤ k → k < cfg.max_retries →
      ∃ h : k - 1 < (sendPayload cfg resp rand).sleeps.length,
        cfg.backoff_base ^ k ≤ (sendPayload cfg resp rand).sleeps.get ⟨k - 1, h⟩ ∧
        (sendPayload cfg resp rand).sleeps.get ⟨k - 1, h⟩ ≤ cfg.backoff_base ^ k + cfg.jitter := by
  have hsp : sendPayload cfg resp rand =
      ⟨cfg.max_retries, sleepsFrom cfg rand 1 (cfg.max_retries - 1), .exhausted⟩ := by
    unfold sendPayload
    rw [if_neg hep]
    exact sendFrom_transient_eq cfg resp rand htr cfg.max_retries 1 (by omega)
  rw [hsp]
  refine ⟨rfl, rfl, sleepsFrom_length cfg rand _ 1, ?_⟩
  intro k h1 h2
  have hk : k - 1 < (sleepsFrom cfg rand 1 (cfg.max_retries - 1)).length := by
    rw [sleepsFrom_length]; omega
  refine ⟨hk, ?_⟩
  rw [sleepsFrom_get cfg rand (cfg.max_retries - 1) 1 (k - 1) hk]
  have e : 1 + (k - 1) = k := by omega
  rw [e]
  have hr0 := (hrand k).1
  have hr1 := (hrand k).2
  have hmul : 0 ≤ rand k * cfg.jitter := mul_nonneg hr0 hjit
  have hmul2 : rand k * cfg.jitter ≤ cfg.jitter := mul_le_of_le_one_left hjit hr1
  constructor
  · linarith
  · linarith

/-- Witness for C1: the test configuration (max_retries = 5,
backoff_base = 2, jitter = 0.3) against an endpoint always answering
HTTP 500, with all random samples equal to 0. -/
theorem sendPayload_always_transient_exhausts_witness :
    (sendPayload cfgTest resp500 rand0).attempts = 5 ∧
    (sendPayload cfgTest resp500 rand0).outcome = DeliveryOutcome.exhausted ∧
    (sendPayload cfgTest resp500 rand0).sleeps.length = 4 := by
  have h := sendPayload_always_transient_exhausts cfgTest resp500 rand0
    (by decide) (fun n => rfl) (fun n => ⟨le_rfl, by norm_num [rand0]⟩)
    (by norm_num [cfgTest, DEFAULT_CONFIG])
  exact ⟨h.1, h.2.1, h.2.2.1⟩

/-- C2: in any run in which the first a-1 attempts end transiently and
attempt a receives an HTTP status in [400,500), `sendPayload` stops at
attempt a with outcome `Rejected(status)` and performs no further
attempts. -/
theorem sendPayload_client_error_stops
    (cfg : Config) (resp : Nat → AttemptResult) (rand : Nat → ℚ) (a c : Nat)
    (hep : cfg.endpoint ≠ "NULL")
    (ha1 : 1 ≤ a) (hamr : a ≤ cfg.max_retries)
    (hprev : ∀ n, 1 ≤ n → n < a → classifyAttempt (resp n) = .transient)
    (hc : resp a = .status c) (h4 : 400 ≤ c) (h5 : c < 500) :
    (sendPayload cfg resp rand).outcome = .rejected c ∧
    (sendPayload cfg resp rand).attempts = a := by
  have hca : classifyAttempt (resp a) = .clientError c := by
    rw [hc]
    simp only [classifyAttempt]
    rw [if_neg (by omega), if_pos ⟨h4, h5⟩]
  have hsp : sendPayload cfg resp rand =
      ⟨a - 1 + 1, sleepsFrom cfg rand 1 (a - 1), .rejected c⟩ := by
    unfold sendPayload
    rw [if_neg hep]
    exact sendFrom_clientError_eq cfg resp rand a c hca cfg.max_retries 1 (by omega) ha1 hamr hprev
  rw [hsp]
  refine ⟨rfl, ?_⟩
  show a - 1 + 1 = a
  omega

/-- Witness for C2: the test configuration against an endpoint always
answering HTTP 404 makes exactly one attempt and is rejected. -/
theorem sendPayload_client_error_stops_witness :
    (sendPayload cfgTest resp404 rand0).outcome = DeliveryOutcome.rejected 404 ∧
    (sendPayload cfgTest resp404 rand0).attempts = 1 :=
  sendPayload_client_error_stops cfgTest resp404 rand0 1 404 (by decide) le_rfl
    (by decide) (fun n h1 h2 => absurd h1 (Nat.not_le.mpr h2)) rfl (by norm_num) (by norm_num)

/-- C3: with the "NULL" sentinel endpoint, `sendPayload` returns the
unconfigured rejection immediately: zero attempts, no sleeps. -/
theorem sendPayload_unconfigured_no_attempts
    (cfg : Config) (resp : Nat → AttemptResult) (rand : Nat → ℚ)
    (h : cfg.endpoint = "NULL") :
    sendPayload cfg resp rand = ⟨0, [], .rejectedUnconfigured⟩ := by
  simp [sendPayload, h]

/-- Witness for C3: the default configuration carries the sentinel
endpoint, so delivery is rejected with zero network attempts. -/
theorem sendPayload_unconfigured_no_attempts_witness :
    sendPayload DEFAULT_CONFIG resp404 rand0 =
      ⟨0, [], DeliveryOutcome.rejectedUnconfigured⟩ :=
  sendPayload_unconfigured_no_attempts DEFAULT_CONFIG resp404 rand0 rfl


/-! Helper lemmas about the CPU estimator and one-decimal rounding. -/

lemma idleDiff_map_nonneg {p c : List CpuTimes} (h : List.Forall₂ cpuTimesLe p c) :
    0 ≤ idleDiff (c.map tickOf) (p.map tickOf) := by
  induction h with
  | nil => simp [idleDiff]
  | @cons a b l1 l2 hab htail ih =>
      simp only [idleDiff, List.map_cons, List.zipWith_cons_cons, List.sum_cons]
      simp only [idleDiff] at ih
      have h1 : a.idle ≤ b.idle := hab.2.2.2.1
      have h2 : (0:ℚ) ≤ (tickOf b).idle - (tickOf a).idle := by
        simp only [tickOf]
        linarith
      linarith

lemma idleDiff_le_totalDiff_map {p c : List CpuTimes} (h : List.Forall₂ cpuTimesLe p c) :
    idleDiff (c.map tickOf) (p.map tickOf) ≤ totalDiff (c.map tickOf) (p.map tickOf) := by
  induction h with
  | nil => simp [idleDiff, totalDiff]
  | @cons a b l1 l2 hab htail ih =>
      simp only [idleDiff, totalDiff, List.map_cons, List.zipWith_cons_cons,
        List.sum_cons] at ih ⊢
      obtain ⟨h1, h2, h3, h4, h5⟩ := hab
      simp only [tickOf]
      linarith

lemma round1_nonneg {x : ℚ} (h : 0 ≤ x) : 0 ≤ round1 x := by
  unfold round1
  have h1 : (0:ℤ) ≤ round (10 * x) := by
    rw [round_eq]
    exact Int.floor_nonneg.mpr (by linarith)
  have h2 : (0:ℚ) ≤ ((round (10 * x) : ℤ) : ℚ) := by exact_mod_cast h1
  exact div_nonneg h2 (by norm_num)

lemma round1_le_hundred {x : ℚ} (h : x ≤ 100) : round1 x ≤ 100 := by
  unfold round1
  have h1 : round (10 * x) ≤ 1000 := by
    rw [round_eq]
    calc ⌊10 * x + 1/2⌋ ≤ ⌊(1000:ℚ) + 1/2⌋ :=
          Int.floor_le_floor (by linarith)
      _ = 1000 := by norm_num
  have h2 : ((round (10 * x) : ℤ) : ℚ) ≤ 1000 := by exact_mod_cast h1
  linarith

/-- C4: for consecutive CPU samples with a stored prior state obtained
from a reading whose tick counters are category-wise non-decreasing
towards the current reading, and with a positive total delta, the
reported utilization equals `100 × (1 − idle_delta/total_delta)` rounded
to one decimal, summed across all logical CPUs, and lies in [0, 100]. -/
theorem calculateCpuPercent_delta_formula
    (prevT curT : List CpuTimes)
    (hmono : List.Forall₂ cpuTimesLe prevT curT)
    (hpos : 0 < totalDiff (curT.map tickOf) (prevT.map tickOf)) :
    (calculateCpuPercent (some (prevT.map tickOf)) curT).1 =
      round1 (100 * (1 - idleDiff (curT.map tickOf) (prevT.map tickOf) /
        totalDiff (curT.map tickOf) (prevT.map tickOf))) ∧
    0 ≤ (calculateCpuPercent (some (prevT.map tickOf)) curT).1 ∧
    (calculateCpuPercent (some (prevT.map tickOf)) curT).1 ≤ 100 := by
  have h0 := idleDiff_map_nonneg hmono
  have h1 := idleDiff_le_totalDiff_map hmono
  have hq0 : 0 ≤ idleDiff (curT.map tickOf) (prevT.map tickOf) /
      totalDiff (curT.map tickOf) (prevT.map tickOf) :=
    div_nonneg h0 (le_of_lt hpos)
  have hq1 : idleDiff (curT.map tickOf) (prevT.map tickOf) /
      totalDiff (curT.map tickOf) (prevT.map tickOf) ≤ 1 :=
    (div_le_one hpos).mpr h1
  have hval : (calculateCpuPercent (some (prevT.map tickOf)) curT).1 =
      round1 (100 - idleDiff (curT.map tickOf) (prevT.map tickOf) /
        totalDiff (curT.map tickOf) (prevT.map tickOf) * 100) := by
    simp only [calculateCpuPercent]
    rw [if_pos hpos]
  refine ⟨?_, ?_, ?_⟩
  · rw [hval]
    congr 1
    ring
  · rw [hval]
    exact round1_nonneg (by linarith)
  · rw [hval]
    exact round1_le_hundred (by linarith)

/-- Witness for C4 at a concrete pair of readings (one CPU, previous
ticks 10/0/10/80/0, current ticks 30/0/20/130/0: idle delta 50 over
total delta 80). -/
theorem calculateCpuPercent_delta_formula_witness :
    0 ≤ (calculateCpuPercent (some (prevW.map tickOf)) curW).1 ∧
    (calculateCpuPercent (some (prevW.map tickOf)) curW).1 ≤ 100 := by
  have hm : List.Forall₂ cpuTimesLe prevW curW := by
    simp only [prevW, curW]
    refine List.Forall₂.cons ?_ List.Forall₂.nil
    norm_num [cpuTimesLe]
  have hp : 0 < totalDiff (curW.map tickOf) (prevW.map tickOf) := by
    norm_num [totalDiff, curW, prevW, tickOf]
  have h := calculateCpuPercent_delta_formula prevW curW hm hp
  exact ⟨h.2.1, h.2.2⟩

/-- C5: the CPU estimator is total (it is a Lean function, so it raises
no exception); the first-ever sample reports exactly 0 while storing the
current reading as the new state; any sample whose total delta is
non-positive reports exactly 0; and with category-wise non-decreasing
tick counters the reported value is never negative. -/
theorem calculateCpuPercent_total_safe (cpus : List CpuTimes) :
    calculateCpuPercent none cpus = (0, cpus.map tickOf) ∧
    (∀ p, totalDiff (cpus.map tickOf) p ≤ 0 →
      (calculateCpuPercent (some p) cpus).1 = 0) ∧
    (∀ prevT, List.Forall₂ cpuTimesLe prevT cpus →
      0 ≤ (calculateCpuPercent (some (prevT.map tickOf)) cpus).1) := by
  refine ⟨rfl, ?_, ?_⟩
  · intro p hp
    simp only [calculateCpuPercent]
    rw [if_neg (not_lt.mpr hp)]
  · intro prevT hmono
    by_cases hpos : 0 < totalDiff (cpus.map tickOf) (prevT.map tickOf)
    · have h1 := idleDiff_le_totalDiff_map hmono
      have hq1 : idleDiff (cpus.map tickOf) (prevT.map tickOf) /
          totalDiff (cpus.map tickOf) (prevT.map tickOf) ≤ 1 :=
        (div_le_one hpos).mpr h1
      simp only [calculateCpuPercent]
      rw [if_pos hpos]
      exact round1_nonneg (by linarith)
    · simp only [calculateCpuPercent]
      rw [if_neg hpos]

/-- Witness for C5: first sample on a concrete reading; a stored state
with larger totals forcing a non-positive delta; and non-negativity on a
concrete monotone pair. -/
theorem calculateCpuPercent_total_safe_witness :
    calculateCpuPercent none curW = (0, curW.map tickOf) ∧
    (calculateCpuPercent (some pBadW) curW).1 = 0 ∧
    0 ≤ (calculateCpuPercent (some (prevW.map tickOf)) curW).1 := by
  have h := calculateCpuPercent_total_safe curW
  refine ⟨h.1, h.2.1 pBadW ?_, h.2.2 prevW ?_⟩
  · norm_num [totalDiff, curW, pBadW, tickOf]
  · simp only [prevW, curW]
    refine List.Forall₂.cons ?_ List.Forall₂.nil
    norm_num [cpuTimesLe]

/-- C9: every produced snapshot carries the disk block, and its fields
are internally consistent: used + free equals total, and percent equals
100·used/total rounded to one decimal. -/
theorem collectMetrics_disk_consistent (prev : Option (List CpuTick))
    (cpus : List CpuTimes) :
    (collectMetrics prev cpus).1.disk.used + (collectMetrics prev cpus).1.disk.free =
      (collectMetrics prev cpus).1.disk.total ∧
    (collectMetrics prev cpus).1.disk.percent =
      round1 (100 * (collectMetrics prev cpus).1.disk.used /
        (collectMetrics prev cpus).1.disk.total) := by
  have hd : (collectMetrics prev cpus).1.disk = getDiskUsage := rfl
  rw [hd]
  constructor
  · norm_num [getDiskUsage]
  · norm_num [getDiskUsage, round1, round_eq]

/-- C10: the request options built by `sendPayload` always use port 443
and the parsed URL's `pathname` (which excludes the query string) as the
request path; changing the explicit port or the query string of the
parsed endpoint leaves the options unchanged. -/
theorem buildRequestOptions_port_path (u : ParsedUrl) (t : ℚ)
    (p : Option Nat) (q : Option String) :
    (buildRequestOptions u t).port = 443 ∧
    (buildRequestOptions u t).path = u.pathname ∧
    buildRequestOptions { u with port := p, query := q } t = buildRequestOptions u t :=
  ⟨rfl, rfl, rfl⟩


/-- Counterexample for C6: in the ultimate fallback path (no identity
file, no persistence file, failing persistence write) each call of
`getMachineId` returns its own freshly drawn `crypto.randomUUID()`
value, so two calls in the same process return different identities
whenever the two drawn UUIDs differ (which holds with overwhelming
probability for 122-bit random UUIDs); nothing is cached in memory. -/
theorem getMachineId_two_calls_differ :
    (getMachineId fsVolatile "11111111-1111-1111-1111-111111111111"
        "22222222-2222-2222-2222-222222222222").1 ≠
      (getMachineId (getMachineId fsVolatile "11111111-1111-1111-1111-111111111111"
          "22222222-2222-2222-2222-222222222222").2
        "33333333-3333-3333-3333-333333333333"
        "44444444-4444-4444-4444-444444444444").1 := by
  decide

/-- C6 (amended): two calls of `getMachineId` in the same process return
the same identity whenever resolution does not hit the ultimate
I/O-failure fallback: an OS identity file is readable, or the
persistence file is readable, or the first call persists its generated
UUID successfully (UUIDs contain no whitespace, so trimming is the
identity on them). In the I/O-failure fallback each call draws a fresh
UUID instead, and nothing is cached in memory. -/
theorem getMachineId_stable_when_resolvable
    (fs : FsState) (u1 u2 v1 v2 : String)
    (hres : fs.etcId ≠ none ∨ fs.dbusId ≠ none ∨ fs.persisted ≠ none ∨ fs.writeOk = true)
    (htrim : trimStr u1 = u1) :
    (getMachineId (getMachineId fs u1 u2).2 v1 v2).1 = (getMachineId fs u1 u2).1 := by
  obtain ⟨e, d, p, w⟩ := fs
  cases e with
  | some s => rfl
  | none =>
      cases d with
      | some s => rfl
      | none =>
          cases p with
          | some s => rfl
          | none =>
              cases w with
              | true => simp [getMachineId, htrim]
              | false => rcases hres with h | h | h | h <;> simp at h

/-- Witness for C6 (amended): with no identity files but a succeeding
persistence write, the second call reads back what the first wrote. -/
theorem getMachineId_stable_when_resolvable_witness :
    (getMachineId (getMachineId fsFresh "abc1" "def1").2 "ghi1" "jkl1").1 =
      (getMachineId fsFresh "abc1" "def1").1 :=
  getMachineId_stable_when_resolvable fsFresh "abc1" "def1" "ghi1" "jkl1"
    (Or.inr (Or.inr (Or.inr rfl))) (by decide)

/-- Counterexample for C7: when the persistence write fails, the catch
branch of `getMachineId` returns a second freshly generated UUID, not
the identifier generated before the write attempt — so the returned
identifier does depend on whether the write succeeded. -/
theorem getMachineId_write_failure_new_uuid :
    (getMachineId fsVolatile "55555555-5555-5555-5555-555555555555"
        "66666666-6666-6666-6666-666666666666").1 =
      "66666666-6666-6666-6666-666666666666" ∧
    "66666666-6666-6666-6666-666666666666" ≠
      "55555555-5555-5555-5555-555555555555" := by
  decide

/-- C7 (amended): in the generate branch (no OS identity file, no
persistence file) the resolver generates one new UUID and attempts to
create the persistence directory and write it; if the write succeeds it
returns that generated identifier (persisting it), but if the write
fails it returns a second freshly generated UUID instead. -/
theorem getMachineId_generate_branch
    (fs : FsState) (u1 u2 : String)
    (he : fs.etcId = none) (hd : fs.dbusId = none) (hp : fs.persisted = none) :
    (fs.writeOk = true →
      getMachineId fs u1 u2 = (u1, { fs with persisted := some u1 })) ∧
    (fs.writeOk = false → (getMachineId fs u1 u2).1 = u2) := by
  have hform : getMachineId fs u1 u2 =
      if fs.writeOk then (u1, { fs with persisted := some u1 }) else (u2, fs) := by
    unfold getMachineId
    rw [he, hd, hp]
  constructor
  · intro hw
    rw [hform, if_pos hw]
  · intro hw
    rw [hform, if_neg (by simp [hw])]

/-- Witness for C7 (amended), successful-write branch. -/
theorem getMachineId_generate_branch_witness :
    getMachineId fsFresh "eee1" "fff1" =
      ("eee1", { fsFresh with persisted := some "eee1" }) :=
  (getMachineId_generate_branch fsFresh "eee1" "fff1" rfl rfl rfl).1 rfl

/-- Counterexample for C8: `main` schedules cycles with `setInterval`,
whose callbacks start at fixed multiples of the interval regardless of
whether the previous asynchronous cycle has finished. With the test
configuration at interval 20 s against an always-500 endpoint, cycle 1
spends at least 2+4+8+16 = 30 s in backoff sleeps, so cycle 2 starts
before cycle 1's network phase has completed. -/
theorem setInterval_tick_overlaps :
    cycleStart cfgFast 0 2 <
      cycleStart cfgFast 0 1 + sleepTotal (sendPayload cfgFast resp500 rand0) := by
  simp [cycleStart, sleepTotal, sendPayload, sendFrom, cfgFast, cfgTest, DEFAULT_CONFIG,
    resp500, rand0, classifyAttempt]
  norm_num

/-- C8 (amended): ticks fire at fixed interval boundaries independent of
cycle durations, so cycles are non-overlapping exactly when each cycle's
network phase fits in the interval: if cycle k's delivery spends at most
`interval_seconds` in its backoff sleeps, that cycle's network phase is
over (its sleeps elapsed) no later than the start of cycle k+1. -/
theorem cycleStart_no_overlap_when_fast
    (cfg : Config) (base : ℚ) (resp : Nat → Nat → AttemptResult)
    (rand : Nat → Nat → ℚ) (k : Nat)
    (hfast : sleepTotal (sendPayload cfg (resp k) (rand k)) ≤ cfg.interval_seconds) :
    cycleStart cfg base k + sleepTotal (sendPayload cfg (resp k) (rand k)) ≤
      cycleStart cfg base (k + 1) := by
  unfold cycleStart
  push_cast
  ring_nf
  nlinarith [hfast]

/-- Witness for C8 (amended): a cycle with an immediately accepted
payload (no sleeps) ends before the next tick. -/
theorem cycleStart_no_overlap_when_fast_witness :
    cycleStart cfgFast 0 0 + sleepTotal (sendPayload cfgFast resp200 rand0) ≤
      cycleStart cfgFast 0 1 :=
  cycleStart_no_overlap_when_fast cfgFast 0 (fun _ => resp200) (fun _ => rand0) 0
    (by
      have hne : ¬("https://api.example.com/ingest" = "NULL") := by decide
      norm_num [sleepTotal, sendPayload, sendFrom, cfgFast, cfgTest, DEFAULT_CONFIG,
        resp200, rand0, classifyAttempt, hne])

end Sylon
